import Mathlib

/-
Verification development for the football prediction reconciliation engine
in src/predictor/analytics.py. The Python functions are shallowly embedded:
probability values become rationals, pandas tables become lists of rows, and
the dictionary-based decision logic becomes structures with explicit fields.
Line numbers in doc comments refer to src/predictor/analytics.py unless noted.
-/

/- ===================== Kernel-computable string helpers ===================== -/

/-- Characters of a string with surrounding whitespace removed; models the
Python str.strip / pandas str.strip operations. -/
def trimChars (l : List Char) : List Char :=
  ((l.dropWhile Char.isWhitespace).reverse.dropWhile Char.isWhitespace).reverse

/-- Python str.strip on a string. -/
def strTrim (s : String) : String := ⟨trimChars s.data⟩

/-- Python str.lower on a string. -/
def strLower (s : String) : String := ⟨s.data.map Char.toLower⟩

/-- Boolean test that the first list is an initial segment of the second. -/
def isPreB (p l : List Char) : Bool :=
  match p, l with
  | [], _ => true
  | _ :: _, [] => false
  | a :: ps, b :: ls => a == b && isPreB ps ls

/-- Boolean substring test on character lists; models the Python in operator
and pandas str.contains with regex disabled. -/
def hasInfixB (l p : List Char) : Bool :=
  match l with
  | [] => p.isEmpty
  | _ :: t => isPreB p l || hasInfixB t p

/-- Python substring containment: needle in hay. -/
def strContains (hay needle : String) : Bool := hasInfixB hay.data needle.data

/-- Python str.startswith. -/
def strStartsWith (s p : String) : Bool := isPreB p.data s.data

/-- Drop the first n characters of a string; models Python slicing s[n:]. -/
def strDropChars (s : String) (n : ℕ) : String := ⟨s.data.drop n⟩

/-- Replace every occurrence of pat by rep, scanning left to right; models
Python str.replace. -/
def replaceChars (pat rep : List Char) (l : List Char) : List Char :=
  match l with
  | [] => []
  | c :: t =>
    if isPreB pat (c :: t) ∧ 0 < pat.length then
      rep ++ replaceChars pat rep (t.drop (pat.length - 1))
    else
      c :: replaceChars pat rep t
termination_by l.length
decreasing_by
  · simp only [List.length_cons, List.length_drop]
    omega
  · simp only [List.length_cons]
    omega

/-- Python str.replace on strings. -/
def strReplace (s pat rep : String) : String := ⟨replaceChars pat.data rep.data s.data⟩

/-- Lexicographic comparison of character lists by code point, as Python
compares strings. -/
def charListLe (a b : List Char) : Bool :=
  match a, b with
  | [], _ => true
  | _ :: _, [] => false
  | x :: xs, y :: ys =>
    if x.val < y.val then true
    else if y.val < x.val then false
    else charListLe xs ys

/-- Insert into a list sorted ascending by the string order. -/
def insertStr (x : String) : List String → List String
  | [] => [x]
  | y :: ys => if charListLe x.data y.data then x :: y :: ys else y :: insertStr x ys

/-- Insertion sort for strings ascending; models the Python sorted builtin on
a collection of team names. -/
def sortStrings : List String → List String
  | [] => []
  | x :: xs => insertStr x (sortStrings xs)

/-- Rational max, written as the two-argument Python max. -/
def qmax (a b : ℚ) : ℚ := if a ≤ b then b else a

/-- Rational min, written as the two-argument Python min. -/
def qmin (a b : ℚ) : ℚ := if b ≤ a then b else a

/-- Rational absolute value, written as the Python abs builtin. -/
def qabs (q : ℚ) : ℚ := if q < 0 then -q else q

/- ===================== Data model ===================== -/

/-- One historical fixture row after schema normalization: home and away team
names, the full-time result as a string (H, D or A in the string-typed
datasets), and a parsed sortable date. Rows whose Date fails both parsing
formats are dropped before reaching the embedded lists (pandas dropna in the
source), so the date field is total here. -/
structure Row where
  home : String
  away : String
  res : String
  date : ℚ
deriving DecidableEq, Repr

/-- Insert into a list sorted descending by a rational key. -/
def insertDesc (key : α → ℚ) (x : α) : List α → List α
  | [] => [x]
  | y :: ys => if key y ≤ key x then x :: y :: ys else y :: insertDesc key x ys

/-- Stable sort descending by a rational key; models pandas sort_values with
ascending False (the order among equal keys is unspecified in the source). -/
def sortDesc (key : α → ℚ) : List α → List α
  | [] => []
  | x :: xs => insertDesc key x (sortDesc key xs)

/- ===================== Team form calculator ===================== -/

/-- One character of the deterministic hash-based synthetic form, lines
793-800: band (team_hash + i * 7919) mod 100 into W below 40, D below 70,
else L. The md5-derived team hash is abstracted as a natural number
parameter; it is a pure function of the team name in the source. -/
def hashFormChar (h i : ℕ) : Char :=
  let r := (h + i * 7919) % 100
  if r < 40 then 'W' else if r < 70 then 'D' else 'L'

/-- The 5-character synthetic form string built by the range(5) loop. -/
def hashForm (h : ℕ) : String :=
  ⟨[hashFormChar h 0, hashFormChar h 1, hashFormChar h 2, hashFormChar h 3, hashFormChar h 4]⟩

/-- Derive the W/D/L character for one retained row, lines 955-965: D stays D;
H while the team is the home side, or A while it is the away side, is a win;
everything else is a loss. is_home compares the raw home column value against
the cleaned team name. -/
def formChar (clean : String) (r : Row) : Char :=
  if r.res == "D" then 'D'
  else if (r.res == "H" && (r.home == clean)) || (r.res == "A" && !(r.home == clean)) then 'W'
  else 'L'

/-- Pad the retained form characters with D up to five entries and keep the
first five, lines 967-972. -/
def padTo5 (l : List Char) : List Char :=
  (l ++ List.replicate (5 - l.length) 'D').take 5

/-- Name variations tried by get_team_recent_form_original, lines 866-878:
the cleaned name and its lowercase, then FC-prefix-stripped, FC-suffix
-stripped and Club-stripped variants with their lowercases. -/
def teamVariations (team : String) : List String :=
  let clean := strTrim team
  let lower := strLower clean
  [clean, lower]
  ++ (if strStartsWith clean "FC " then
        [strTrim (strDropChars clean 3), strLower (strTrim (strDropChars clean 3))]
      else [])
  ++ (if strContains clean " FC" then
        [strTrim (strReplace clean " FC" ""), strLower (strTrim (strReplace clean " FC" ""))]
      else [])
  ++ (if strContains clean "Club" then
        [strTrim (strReplace (strReplace clean "Club " "") "Club" ""),
         strLower (strTrim (strReplace (strReplace clean "Club " "") "Club" ""))]
      else [])

/-- Variation tier, lines 888-894: try each remaining variation longer than
two characters with exact column equality; the first non-empty result wins. -/
def firstVariationRows (vars : List String) (rows : List Row) : List Row :=
  match vars with
  | [] => []
  | v :: vs =>
    if 2 < v.length then
      let m := rows.filter (fun r => r.home == v || r.away == v)
      if m.isEmpty then firstVariationRows vs rows else m
    else firstVariationRows vs rows

/-- Similar-team tier, lines 912-927: collect the sorted distinct team names
of the table, keep those related to the requested name by lowercase substring
containment in either direction, and retry the filter with the first one
(exact equality first, then trimmed lowercase equality). -/
def similarTierRows (team : String) (rows : List Row) : List Row :=
  let teamLower := strLower (strTrim team)
  let allTeams := sortStrings ((rows.map Row.home ++ rows.map Row.away).dedup)
  let similar := allTeams.filter
    (fun t => hasInfixB (strLower t).data teamLower.data || hasInfixB teamLower.data (strLower t).data)
  match similar with
  | [] => []
  | s0 :: _ =>
    let m := rows.filter (fun r => r.home == s0 || r.away == s0)
    if m.isEmpty then
      rows.filter (fun r =>
        strLower (strTrim r.home) == strLower s0 || strLower (strTrim r.away) == strLower s0)
    else m

/-- Row-selection cascade of get_team_recent_form_original, lines 880-927:
exact trimmed match, then name variations, then case-insensitive match, then
lowercase substring containment, then the similar-team retry. The first tier
with a non-empty result wins. -/
def selectTeamRows (team : String) (rows : List Row) : List Row :=
  let clean := strTrim team
  let lower := strLower clean
  let exact := rows.filter (fun r => strTrim r.home == clean || strTrim r.away == clean)
  if !exact.isEmpty then exact else
  let varRows := firstVariationRows ((teamVariations team).drop 1) rows
  if !varRows.isEmpty then varRows else
  let ci := rows.filter (fun r =>
    strLower (strTrim r.home) == lower || strLower (strTrim r.away) == lower)
  if !ci.isEmpty then ci else
  let part := rows.filter (fun r =>
    hasInfixB (strLower r.home).data lower.data || hasInfixB (strLower r.away).data lower.data)
  if !part.isEmpty then part else
  similarTierRows team rows

/-- get_team_recent_form_original, lines 771-975. The data argument is none
for the empty-table sentinel and the missing-columns paths (lines 788-838),
which all return the hash-based synthetic form; otherwise it is the list of
rows with parsed dates. teamHash abstracts the md5 prefix of the cleaned
team name (lines 791, 933). -/
def get_team_recent_form_original (team : String) (teamHash : ℕ) (data : Option (List Row)) : String :=
  match data with
  | none => hashForm teamHash
  | some rows =>
    let sel := selectTeamRows team rows
    if sel.isEmpty then hashForm teamHash
    else
      let recent := (sortDesc Row.date sel).take 5
      let form := recent.map (formChar (strTrim team))
      ⟨padTo5 form⟩

/-- get_team_recent_form_model2, lines 356-396. none models a table without a
Date column (including the empty sentinel) and the exception path, both of
which return the dash placeholder; otherwise the rows with parsed dates are
filtered by exact name equality, sorted descending, cut to five and mapped to
W/D/L with no padding; an empty result also yields the dash placeholder. -/
def get_team_recent_form_model2 (team : String) (data : Option (List Row)) : String :=
  match data with
  | none => "-----"
  | some rows =>
    let recent := (sortDesc Row.date (rows.filter (fun r => r.home == team || r.away == team))).take 5
    let form := recent.map (formChar team)
    if form.isEmpty then "-----" else ⟨form⟩

/- ===================== Prediction reconciliation: determine_final_prediction ===================== -/

/-- Raw classifier prediction as handed to determine_final_prediction: either
a numeric value, or a non-numeric string label (such as H, D or A) on which
the Python float conversion raises ValueError. -/
inductive RawPred where
  | num (q : ℚ)
  | label (s : String)
deriving DecidableEq, Repr

/-- The float conversion at line 1118: numeric values pass through and
non-numeric labels fail (none models the raised ValueError). -/
def RawPred.toFloat : RawPred → Option ℚ
  | .num q => some q
  | .label _ => none

/-- Step 1 of determine_final_prediction, lines 1121-1135: map the numeric
prediction to an outcome string through the class-index checks first and the
legacy continuous ranges second; anything else is the invalid signal (none). -/
def modelOutcomeOf (v : ℚ) : Option String :=
  if v = 0 then some "Away Team Win"
  else if v = 1 then some "Draw"
  else if v = 2 then some "Home Team Win"
  else if 0.5 ≤ v ∧ v ≤ 1.4 then some "Away Team Win"
  else if 1.5 ≤ v ∧ v ≤ 2.4 then some "Draw"
  else if 2.5 ≤ v ∧ v ≤ 3.4 then some "Home Team Win"
  else none

/-- Historical probability triple as the percentage dictionary built by
calculate_probabilities_original and calculate_probabilities_model2, with
keys Home Team Win, Draw and Away Team Win. -/
structure HistProbs where
  home : ℚ
  draw : ℚ
  away : ℚ
deriving DecidableEq, Repr

/-- max over the three dictionary values, line 1143. -/
def HistProbs.maxProb (p : HistProbs) : ℚ := qmax p.home (qmax p.draw p.away)

/-- Membership of a value in highest_outcomes, line 1144: its value equals
the maximum. -/
def isHighest (v : ℚ) (p : HistProbs) : Prop := v = p.maxProb

/-- Membership in close_ties, line 1147: within five points of the maximum
but not already among the highest. -/
def isCloseTie (v : ℚ) (p : HistProbs) : Prop := qabs (v - p.maxProb) ≤ 5 ∧ v ≠ p.maxProb

/-- Membership in all_close_outcomes, line 1148. -/
def allClose (v : ℚ) (p : HistProbs) : Prop := isHighest v p ∨ isCloseTie v p

instance (v : ℚ) (p : HistProbs) : Decidable (isHighest v p) := by
  unfold isHighest; infer_instance

instance (v : ℚ) (p : HistProbs) : Decidable (isCloseTie v p) := by
  unfold isCloseTie; infer_instance

instance (v : ℚ) (p : HistProbs) : Decidable (allClose v p) := by
  unfold allClose; infer_instance

/-- len(highest_outcomes). -/
def nHighest (p : HistProbs) : ℕ :=
  (if isHighest p.home p then 1 else 0) + (if isHighest p.draw p then 1 else 0)
    + (if isHighest p.away p then 1 else 0)

/-- len(close_ties). -/
def nClose (p : HistProbs) : ℕ :=
  (if isCloseTie p.home p then 1 else 0) + (if isCloseTie p.draw p then 1 else 0)
    + (if isCloseTie p.away p then 1 else 0)

/-- len(all_close_outcomes) = len(highest_outcomes) + len(close_ties). -/
def nAllClose (p : HistProbs) : ℕ := nHighest p + nClose p

/-- Membership of the model outcome string in highest_outcomes, used by the
Case 3 and Case 4 returns (lines 1171, 1178). -/
def moInHighest (mo : String) (p : HistProbs) : Prop :=
  (mo = "Home Team Win" ∧ isHighest p.home p) ∨ (mo = "Draw" ∧ isHighest p.draw p)
    ∨ (mo = "Away Team Win" ∧ isHighest p.away p)

instance (mo : String) (p : HistProbs) : Decidable (moInHighest mo p) := by
  unfold moInHighest; infer_instance

/-- The Case 1-5 decision table of determine_final_prediction, lines
1150-1185, evaluated top to bottom with the first match winning. -/
def decisionTable (mo : String) (p : HistProbs) : String :=
  if nHighest p = 1 ∧ nClose p = 0 then mo
  else if (isHighest p.home p ∧ isHighest p.away p)
      ∨ (allClose p.home p ∧ allClose p.away p ∧ nAllClose p = 2) then
    if mo = "Draw" then "Home Team Win or Away Team Win" else mo
  else if (isHighest p.home p ∧ isHighest p.draw p)
      ∨ (allClose p.home p ∧ allClose p.draw p ∧ nAllClose p = 2) then
    if mo = "Away Team Win" then "Home Team Win or Draw"
    else if moInHighest mo p then mo else "Home Team Win or Draw"
  else if (isHighest p.away p ∧ isHighest p.draw p)
      ∨ (allClose p.away p ∧ allClose p.draw p ∧ nAllClose p = 2) then
    if mo = "Home Team Win" then "Away Team Win or Draw"
    else if moInHighest mo p then mo else "Away Team Win or Draw"
  else if nHighest p = 3 then mo
  else mo

/-- determine_final_prediction, lines 1105-1190. A failing float conversion
raises inside the try block and the handler at lines 1186-1190 returns Home
Team Win. A numeric prediction outside every bucket returns the invalid
signal. A falsy or empty probability dictionary (none here) returns the
model outcome directly, line 1139-1141; otherwise the decision table runs. -/
def determine_final_prediction (pred : RawPred) (probs : Option HistProbs) : String :=
  match pred.toFloat with
  | none => "Home Team Win"
  | some v =>
    match modelOutcomeOf v with
    | none => "❗ Invalid prediction"
    | some mo =>
      match probs with
      | none => mo
      | some p => decisionTable mo p

/- ===================== advanced_predict_match probability assembly ===================== -/

/-- The prob_dict of advanced_predict_match with the canonical keys 0 Away,
1 Draw, 2 Home. -/
structure ProbDict where
  away : ℚ
  draw : ℚ
  home : ℚ
deriving DecidableEq, Repr

/-- sum(prob_dict.values()). -/
def ProbDict.total (pd : ProbDict) : ℚ := pd.away + pd.draw + pd.home

/-- Python max(prob_dict, key=prob_dict.get): the first key holding the
maximal value in the insertion order 0, 1, 2 (the order in which the class
mapping fills the dictionary on the main path). -/
def ProbDict.argmax (pd : ProbDict) : ℕ :=
  if pd.draw ≤ pd.away ∧ pd.home ≤ pd.away then 0
  else if pd.home ≤ pd.draw then 1 else 2

/-- First normalization, lines 2253-2258: divide by the sum when positive,
otherwise reset to the 0.33/0.34/0.33 default. -/
def stepDNormalizeBase (pd : ProbDict) : ProbDict :=
  if 0 < pd.total then ⟨pd.away / pd.total, pd.draw / pd.total, pd.home / pd.total⟩
  else ⟨0.33, 0.34, 0.33⟩

/-- Percentage guard on a single value, lines 2262-2265 and 2525-2528: any
value above one is treated as a stray percentage and divided by 100. -/
def pctFix (v : ℚ) : ℚ := if 1 < v then v / 100 else v

/-- The percentage guard applied to every entry of the dictionary. -/
def pctFixAll (pd : ProbDict) : ProbDict := ⟨pctFix pd.away, pctFix pd.draw, pctFix pd.home⟩

/-- Conditional renormalization, lines 2267-2271: renormalize only when the
sum is positive and more than 0.01 away from one. -/
def renormIfOff (pd : ProbDict) : ProbDict :=
  if 0 < pd.total ∧ 0.01 < qabs (pd.total - 1) then
    ⟨pd.away / pd.total, pd.draw / pd.total, pd.home / pd.total⟩
  else pd

/-- Validation reset, lines 2276-2280: a sum more than 0.05 away from one is
replaced by the default split. -/
def validationReset (pd : ProbDict) : ProbDict :=
  if 0.05 < qabs (pd.total - 1) then ⟨0.33, 0.34, 0.33⟩ else pd

/-- The full Step D normalization path of advanced_predict_match, lines
2253-2280, in source order: normalize, percentage guard, conditional
renormalization, validation reset. -/
def stepDNormalize (pd : ProbDict) : ProbDict :=
  validationReset (renormIfOff (pctFixAll (stepDNormalizeBase pd)))

/-- The 60/40 blend of prob_dict with a form-derived triple followed by the
renormalization, lines 2312-2325. The prob_dict.get defaults never fire here
because the embedded dictionary always carries all three keys. -/
def blendWithForm (pd : ProbDict) (fh fd fa : ℚ) : ProbDict :=
  let blended : ProbDict :=
    ⟨pd.away * 0.6 + fa * 0.4, pd.draw * 0.6 + fd * 0.4, pd.home * 0.6 + fh * 0.4⟩
  if 0 < blended.total then
    ⟨blended.away / blended.total, blended.draw / blended.total, blended.home / blended.total⟩
  else blended

/-- Form-based correction pass, lines 2284-2327: when the strength difference
exceeds 0.1 in magnitude and falls in one of the four bands, blend the
probabilities 60/40 with the form-derived triple and renormalize; the final
else is the form_home_prob None case (no adjustment). -/
def formCorrection (pd : ProbDict) (formDiff : ℚ) : ProbDict :=
  if 0.1 < qabs formDiff then
    if formDiff < -0.12 then blendWithForm pd 0.22 0.30 0.48
    else if formDiff < -0.08 then blendWithForm pd 0.26 0.32 0.42
    else if 0.12 < formDiff then blendWithForm pd 0.48 0.30 0.22
    else if 0.08 < formDiff then blendWithForm pd 0.42 0.32 0.26
    else pd
  else pd

/-- use_historical flag, lines 2370-2380: the historical percentages spread
more than ten points apart. The dictionary defaults of 33.3 never fire
because the embedded triple always carries all three keys. -/
def useHistorical (p : HistProbs) : Prop :=
  10 < qmax p.away (qmax p.draw p.home) - qmin p.away (qmin p.draw p.home)

instance (p : HistProbs) : Decidable (useHistorical p) := by
  unfold useHistorical; infer_instance

/-- Historical replacement, lines 2382-2398: when use_historical holds,
replace prob_dict by the historical triple scaled to decimals and normalized
when its sum is positive. -/
def histReplace (p : HistProbs) (pd : ProbDict) : ProbDict :=
  if useHistorical p then
    let hist : ProbDict := ⟨p.away / 100, p.draw / 100, p.home / 100⟩
    if 0 < hist.total then
      ⟨hist.away / hist.total, hist.draw / hist.total, hist.home / hist.total⟩
    else hist
  else pd

/-- Final validation before returning, lines 2524-2541: percentage guard per
entry, then normalize when the sum is positive and more than 0.05 away from
one, resetting to the default split on a zero sum. -/
def finalValidation (pd : ProbDict) : ProbDict :=
  let pd1 := pctFixAll pd
  if 0.05 < qabs (pd1.total - 1) then
    if 0 < pd1.total then ⟨pd1.away / pd1.total, pd1.draw / pd1.total, pd1.home / pd1.total⟩
    else ⟨0.33, 0.34, 0.33⟩
  else pd1

/-- The probability pipeline of the advanced_predict_match main path from the
mapped model probabilities to the returned dictionary: Step D normalization
(2253-2280), form correction (2284-2327), historical replacement (2370-2398)
and final validation (2524-2541). -/
def assembleFinalProbs (raw : ProbDict) (formDiff : ℚ) (p : HistProbs) : ProbDict :=
  finalValidation (histReplace p (formCorrection (stepDNormalize raw) formDiff))

/- ===================== advanced_predict_match final label section ===================== -/

/-- Result of the final label section of advanced_predict_match: the
final_prediction string, the outcome field and the probability dictionary as
returned to the caller. -/
structure LabelResult where
  final : String
  outcome : String
  probsOut : ProbDict
deriving DecidableEq, Repr

/-- outcome_map.get(prediction, Draw) for the canonical 0/1/2 keys, lines
2443-2444 and 2453-2455. -/
def outcomeMapGet (prediction : ℕ) : String :=
  if prediction = 0 then "Away" else if prediction = 1 then "Draw"
  else if prediction = 2 then "Home" else "Draw"

/-- The final label section of advanced_predict_match, lines 2331-2462, for a
non-regressor model on the main path: recompute the prediction as the argmax
of the corrected probabilities (2331-2343); when the historical spread
exceeds ten points replace everything by the historical triple (2382-2405);
otherwise run determine_final_prediction, convert its string to an outcome
code (2406-2445) and override with the probability argmax when the corrected
probabilities spread by at least 0.05 (2447-2456); with no historical triple
fall back to the model outcome map (2457-2462). -/
def finalLabelSection (pred : RawPred) (probs : Option HistProbs) (pd : ProbDict) : LabelResult :=
  let prediction := pd.argmax
  match probs with
  | none =>
    let outcome := outcomeMapGet prediction
    { final := outcome, outcome := outcome, probsOut := pd }
  | some p =>
    if useHistorical p then
      let hist : ProbDict := ⟨p.away / 100, p.draw / 100, p.home / 100⟩
      let hist2 := if 0 < hist.total then
          (⟨hist.away / hist.total, hist.draw / hist.total, hist.home / hist.total⟩ : ProbDict)
        else hist
      let outcome := outcomeMapGet hist2.argmax
      { final := outcome, outcome := outcome, probsOut := hist2 }
    else
      let final := determine_final_prediction pred (some p)
      let outcome1 :=
        if strContains final " or " then
          if strContains final "Home Team Win or Draw" then "Home"
          else if strContains final "Away Team Win or Draw" then "Away"
          else if strContains final "Home Team Win or Away Team Win" then
            (if prediction = 0 then "Away" else "Home")
          else if strContains final "Home Team Win" then "Home"
          else if strContains final "Away Team Win" then "Away"
          else "Draw"
        else if strContains final "Home Team Win" ∨ strTrim final = "Home" then "Home"
        else if strContains final "Away Team Win" ∨ strTrim final = "Away" then "Away"
        else if strTrim final = "Draw" then "Draw"
        else outcomeMapGet prediction
      let outcome2 :=
        if 0.05 ≤ qmax pd.away (qmax pd.draw pd.home) - qmin pd.away (qmin pd.draw pd.home) then
          outcomeMapGet prediction
        else outcome1
      { final := final, outcome := outcome2, probsOut := pd }

/- ===================== Historical probability engine ===================== -/

/-- The head-to-head branch of calculate_probabilities_original, lines
498-608, for the string-typed result encoding (the integer encoding at lines
580-595 is structurally identical with H, D, A replaced by 2, 1, 0). Both
fixture directions are collected with trimmed name equality; an empty union
returns none, modelling the jump to the form-based fallback at lines 528-556
(not needed by the H2H claims). Otherwise the counts are tallied with the
direction-2 results flipped and scaled to percentages of the total. -/
def calculate_probabilities_h2h (home away : String) (rows : List Row) : Option HistProbs :=
  let homeStr := strTrim home
  let awayStr := strTrim away
  let h2hHome := rows.filter (fun r => strTrim r.home == homeStr && strTrim r.away == awayStr)
  let h2hAway := rows.filter (fun r => strTrim r.home == awayStr && strTrim r.away == homeStr)
  if h2hHome.length + h2hAway.length = 0 then none
  else
    let homeWins := h2hHome.countP (fun r => r.res == "H") + h2hAway.countP (fun r => r.res == "A")
    let draws := h2hHome.countP (fun r => r.res == "D") + h2hAway.countP (fun r => r.res == "D")
    let awayWins := h2hHome.countP (fun r => r.res == "A") + h2hAway.countP (fun r => r.res == "H")
    let total : ℚ := ((h2hHome.length + h2hAway.length : ℕ) : ℚ)
    some ⟨(homeWins : ℚ) / total * 100, (draws : ℚ) / total * 100, (awayWins : ℚ) / total * 100⟩

/-- Result inversion used to state the fixture-direction mirror: H and A swap
and every other value (notably D) is unchanged. -/
def invRes (s : String) : String := if s == "H" then "A" else if s == "A" then "H" else s

/-- Mirror of one fixture row: home and away columns swapped and the result
inverted. -/
def mirrorRow (r : Row) : Row := { home := r.away, away := r.home, res := invRes r.res, date := r.date }

/- ===================== Category router of advanced_predict_match ===================== -/

/-- Shape of the early control flow of advanced_predict_match. -/
inductive RouteOutcome where
  | fallbackPrediction (modelType : String)
  | model1Path
  | model2Path
  | nullResult
deriving DecidableEq, Repr

/-- Dataset choice plus control-flow outcome of the routing prologue. -/
structure RouteResult where
  requiredDataset : ℕ
  outcome : RouteOutcome
deriving DecidableEq, Repr

/-- Routing prologue of advanced_predict_match, lines 1656-1846: pick the
required dataset from the two cached category sets (mixed pairs default to
dataset 1); an empty loaded dataset returns the form-based fallback
prediction tagged by category (lines 1672-1759); otherwise both-main pairs
take the Model1 path, both-other pairs the Model2 path, and mixed pairs
return None (lines 1844-1846). The category sets are the unions of the
league lists of LEAGUES_BY_CATEGORY in src/predictor/views.py, passed here
as parameters. -/
def advanced_predict_route (mainTeams otherTeams : List String) (home away : String)
    (dataEmpty : Bool) : RouteResult :=
  let requiredDataset :=
    if mainTeams.contains home && mainTeams.contains away then 1
    else if otherTeams.contains home && otherTeams.contains away then 2
    else 1
  if dataEmpty then
    { requiredDataset := requiredDataset,
      outcome := .fallbackPrediction
        (if otherTeams.contains home && otherTeams.contains away then
          "Model2 (Form-Based Fallback)" else "Model1 (Form-Based Fallback)") }
  else if mainTeams.contains home && mainTeams.contains away then
    { requiredDataset := requiredDataset, outcome := .model1Path }
  else if otherTeams.contains home && otherTeams.contains away then
    { requiredDataset := requiredDataset, outcome := .model2Path }
  else
    { requiredDataset := requiredDataset, outcome := .nullResult }

/-- The Premier League list of LEAGUES_BY_CATEGORY under European Leagues,
src/predictor/views.py lines 88-90 (sorted in the source; order does not
matter for membership). -/
def premierLeagueTeams : List String :=
  ["Arsenal", "Aston Villa", "Bournemouth", "Brentford", "Brighton", "Chelsea", "Crystal Palace",
   "Everton", "Fulham", "Ipswich", "Leicester", "Liverpool", "Man City", "Man United", "Newcastle",
   "Nott\x27m Forest", "Southampton", "Tottenham", "West Ham", "Wolves"]

/-- The Switzerland League list of LEAGUES_BY_CATEGORY under Others,
src/predictor/views.py lines 139-140. -/
def switzerlandLeagueTeams : List String :=
  ["Basel", "Grasshoppers", "Lausanne", "Lugano", "Luzern", "Servette", "Sion",
   "St. Gallen", "Winterthur", "Young Boys", "Yverdon", "Zurich"]

/- ===================== Weighted form strength ===================== -/

/-- form_points.get(result, 1), line 2638 and 2644: W is 3 points, D is 1,
L is 0 and anything else defaults to 1. -/
def formPointsOf (c : Char) : ℚ :=
  if c == 'W' then 3 else if c == 'D' then 1 else if c == 'L' then 0 else 1

/-- The recency weight list of calculate_team_strength, line 2639. -/
def recencyWeights : List ℚ := [1.0, 1.2, 1.4, 1.6, 1.8]

/-- The accumulation loop of calculate_team_strength, lines 2641-2647,
walking the form characters left to right from index i and summing the
weighted points together with the maximal weighted points. -/
def weightedAccum : List Char → ℕ → ℚ × ℚ
  | [], _ => (0, 0)
  | c :: t, i =>
    let w := recencyWeights.getD i 1
    let rest := weightedAccum t (i + 1)
    (formPointsOf c * w + rest.1, 3 * w + rest.2)

/-- Normalized weighted form strength, lines 2641-2650: weighted points over
maximal weighted points on the first five characters, with a 0.5 default on
an empty maximum. The form string argument is most-recent-first as produced
by get_team_recent_form_original (line 971). -/
def formStrengthOf (form : List Char) : ℚ :=
  let acc := weightedAccum (form.take 5) 0
  if 0 < acc.2 then acc.1 / acc.2 else 0.5

/-- Home-advantage and away-penalty adjustment with clamping, lines
2652-2662. -/
def calculate_team_strength_adjust (fs : ℚ) (isHome : Bool) : ℚ :=
  let adj := if isHome then fs + 0.08 else (if 0.6 < fs then fs - 0.02 else fs - 0.05)
  qmin 1 (qmax 0 adj)

/- ===================== Statement-level predicates ===================== -/

/-- A historical triple with one clear winner in the sense of the claim: a
unique maximum with both other outcomes more than five points below it. -/
def ClearWinner (p : HistProbs) : Prop :=
  (p.draw + 5 < p.home ∧ p.away + 5 < p.home) ∨
  (p.home + 5 < p.draw ∧ p.away + 5 < p.draw) ∨
  (p.home + 5 < p.away ∧ p.draw + 5 < p.away)

/-- A valid probability dictionary: non-negative entries summing to one. -/
def GoodTriple (pd : ProbDict) : Prop :=
  0 ≤ pd.away ∧ 0 ≤ pd.draw ∧ 0 ≤ pd.home ∧ pd.total = 1

/- ===================== Helper lemmas ===================== -/

theorem hashFormChar_mem (h i : ℕ) : hashFormChar h i = 'W' ∨ hashFormChar h i = 'D' ∨ hashFormChar h i = 'L' := by
  unfold hashFormChar
  dsimp only
  split_ifs <;> simp

theorem formChar_mem (clean : String) (r : Row) :
    formChar clean r = 'W' ∨ formChar clean r = 'D' ∨ formChar clean r = 'L' := by
  unfold formChar
  split_ifs <;> simp

theorem padTo5_length (l : List Char) : (padTo5 l).length = 5 := by
  unfold padTo5
  simp [List.length_take, List.length_append]
  omega

theorem padTo5_mem (l : List Char) (c : Char) (hc : c ∈ padTo5 l) : c ∈ l ∨ c = 'D' := by
  unfold padTo5 at hc
  have hc2 := List.mem_of_mem_take hc
  rcases List.mem_append.mp hc2 with h1 | h2
  · exact Or.inl h1
  · exact Or.inr (List.eq_of_mem_replicate h2)

theorem hashForm_length (h : ℕ) : (hashForm h).length = 5 := rfl

theorem hashForm_mem (h : ℕ) (c : Char) (hc : c ∈ (hashForm h).data) :
    c = 'W' ∨ c = 'D' ∨ c = 'L' := by
  have he : (hashForm h).data =
      [hashFormChar h 0, hashFormChar h 1, hashFormChar h 2, hashFormChar h 3, hashFormChar h 4] := rfl
  rw [he] at hc
  simp only [List.mem_cons, List.not_mem_nil, or_false] at hc
  rcases hc with h1 | h1 | h1 | h1 | h1 <;> (subst h1; exact hashFormChar_mem _ _)

theorem string_mk_length (l : List Char) : (String.mk l).length = l.length := rfl

/- ===================== C6 ===================== -/

/-- C6 amended: get_team_recent_form_original always returns exactly five
characters drawn from W, D, L, for every team name, team hash and table
(including the empty sentinel). The Model2 variant does not satisfy this; see
the counterexample. -/
theorem C6_form_invariant_original (team : String) (h : ℕ) (data : Option (List Row)) :
    (get_team_recent_form_original team h data).length = 5 ∧
    ∀ c ∈ (get_team_recent_form_original team h data).data, c = 'W' ∨ c = 'D' ∨ c = 'L' := by
  unfold get_team_recent_form_original
  match data with
  | none => exact ⟨hashForm_length h, fun c hc => hashForm_mem h c hc⟩
  | some rows =>
    dsimp only
    split_ifs with hempty
    · exact ⟨hashForm_length h, fun c hc => hashForm_mem h c hc⟩
    · constructor
      · rw [string_mk_length, padTo5_length]
      · intro c hc
        have hc2 : c ∈ padTo5 (((sortDesc Row.date (selectTeamRows team rows)).take 5).map
            (formChar (strTrim team))) := hc
        rcases padTo5_mem _ c hc2 with h1 | h1
        · rcases List.mem_map.mp h1 with ⟨r, _, hr⟩
          rw [← hr]
          exact formChar_mem _ r
        · exact Or.inr (Or.inl h1)

/-- C6 counterexample: on a one-row table the Model2 form variant returns the
single character W with no padding, so its result is not a five-character
string; the claim fails for get_team_recent_form_model2. -/
theorem C6_model2_counterexample :
    get_team_recent_form_model2 "TeamX" (some [⟨"TeamX", "TeamY", "H", 0⟩]) = "W" ∧
    (get_team_recent_form_model2 "TeamX" (some [⟨"TeamX", "TeamY", "H", 0⟩])).length ≠ 5 := by
  constructor <;> decide

/- ===================== C10 ===================== -/

/-- C10: determine_final_prediction never propagates the float-conversion
failure: for every non-numeric string label (such as H, D or A) and every
probability dictionary, the except handler returns Home Team Win — not the
invalid-prediction signal and not the outcome the label names. -/
theorem C10_label_exception_default (s : String) (probs : Option HistProbs) :
    determine_final_prediction (.label s) probs = "Home Team Win" := rfl

/- ===================== C9 ===================== -/

/-- C9: evaluation of the weighted form strength of calculate_team_strength
at the failing input. The form string WLLLL is most-recent-first (line 971),
yet the code weights its first character by 1.0 and the last by 1.8: a win in
the most recent match scores 3 times 1.0 over 21, while the same win placed
oldest scores 3 times 1.8 over 21. The most recent match therefore does NOT
receive the highest weight 1.8, contradicting the claim and the comments at
lines 2637-2639. -/
theorem C9_recency_weights_misapplied :
    formStrengthOf ['W', 'L', 'L', 'L', 'L'] = 1 / 7 ∧
    formStrengthOf ['L', 'L', 'L', 'L', 'W'] = 9 / 35 ∧ (1 / 7 : ℚ) ≠ 9 / 35 := by
  refine ⟨?_, ?_, by norm_num⟩ <;>
    norm_num [formStrengthOf, weightedAccum, recencyWeights, formPointsOf, List.getD,
      show ('L' : Char) ≠ 'W' by decide, show ('L' : Char) ≠ 'D' by decide]

/- ===================== C5 ===================== -/

/-- C5: evaluation of the Step D normalization path at the failing input. A
stray percentage 65.0 next to decimal-scale values 0.2 and 0.15 is first
normalized by the raw sum 65.35, so it ends at 1300/1307, above 0.99 — not at
approximately 0.65 as the claim (and the CRITICAL FIX comment at lines
2260-2261) require: after the division every value is at most one, so the
percentage guard can never fire. -/
theorem C5_percentage_fix_dead :
    stepDNormalize ⟨1/5, 3/20, 65⟩ = ⟨4/1307, 3/1307, 1300/1307⟩ ∧
    (99/100 : ℚ) < 1300/1307 := by
  constructor
  · norm_num [stepDNormalize, stepDNormalizeBase, pctFixAll, pctFix, renormIfOff,
      validationReset, qabs, ProbDict.total]
  · norm_num

/- ===================== C2 counterexample ===================== -/

/-- C2 counterexample: with all three historical outcomes exactly tied at
33.33 and the model predicting Draw, determine_final_prediction returns the
double-chance label, not the model prediction: Case 2 (Home and Away both
among the highest outcomes) fires before the all-tied Case 5. -/
theorem C2_all_tied_draw_counterexample :
    determine_final_prediction (.num 1) (some ⟨3333/100, 3333/100, 3333/100⟩) =
      "Home Team Win or Away Team Win" ∧
    ("Home Team Win or Away Team Win" : String) ≠ "Draw" := by
  constructor
  · norm_num [determine_final_prediction, RawPred.toFloat, modelOutcomeOf, decisionTable,
      nHighest, nClose, nAllClose, isHighest, isCloseTie, allClose, HistProbs.maxProb,
      qmax, qabs, moInHighest]
  · decide

/- ===================== Decision table lemmas ===================== -/

theorem maxProb_eq_home (p : HistProbs) (h1 : p.draw ≤ p.home) (h2 : p.away ≤ p.home) :
    p.maxProb = p.home := by
  unfold HistProbs.maxProb qmax
  split_ifs <;> linarith

theorem maxProb_eq_draw (p : HistProbs) (h1 : p.home ≤ p.draw) (h2 : p.away ≤ p.draw) :
    p.maxProb = p.draw := by
  unfold HistProbs.maxProb qmax
  split_ifs <;> linarith

theorem maxProb_eq_away (p : HistProbs) (h1 : p.home ≤ p.away) (h2 : p.draw ≤ p.away) :
    p.maxProb = p.away := by
  unfold HistProbs.maxProb qmax
  split_ifs
  all_goals linarith

theorem notCloseTie_far (v : ℚ) (p : HistProbs) (h : v + 5 < p.maxProb) : ¬ isCloseTie v p := by
  unfold isCloseTie qabs
  rintro ⟨hle, -⟩
  split_ifs at hle <;> linarith

theorem notCloseTie_max (v : ℚ) (p : HistProbs) (h : v = p.maxProb) : ¬ isCloseTie v p := by
  unfold isCloseTie
  rintro ⟨-, hne⟩
  exact hne h

theorem clearWinner_counts (p : HistProbs) (h : ClearWinner p) :
    nHighest p = 1 ∧ nClose p = 0 := by
  rcases h with ⟨h1, h2⟩ | ⟨h1, h2⟩ | ⟨h1, h2⟩
  · have hmax : p.maxProb = p.home := maxProb_eq_home p (by linarith) (by linarith)
    have e1 : isHighest p.home p := hmax.symm
    have e2 : ¬ isHighest p.draw p := by unfold isHighest; rw [hmax]; intro hc; linarith
    have e3 : ¬ isHighest p.away p := by unfold isHighest; rw [hmax]; intro hc; linarith
    refine ⟨?_, ?_⟩
    · unfold nHighest
      rw [if_pos e1, if_neg e2, if_neg e3]
    · unfold nClose
      rw [if_neg (notCloseTie_max _ _ e1), if_neg (notCloseTie_far _ _ (by rw [hmax]; linarith)),
        if_neg (notCloseTie_far _ _ (by rw [hmax]; linarith))]
  · have hmax : p.maxProb = p.draw := maxProb_eq_draw p (by linarith) (by linarith)
    have e1 : ¬ isHighest p.home p := by unfold isHighest; rw [hmax]; intro hc; linarith
    have e2 : isHighest p.draw p := hmax.symm
    have e3 : ¬ isHighest p.away p := by unfold isHighest; rw [hmax]; intro hc; linarith
    refine ⟨?_, ?_⟩
    · unfold nHighest
      rw [if_neg e1, if_pos e2, if_neg e3]
    · unfold nClose
      rw [if_neg (notCloseTie_far _ _ (by rw [hmax]; linarith)), if_neg (notCloseTie_max _ _ e2),
        if_neg (notCloseTie_far _ _ (by rw [hmax]; linarith))]
  · have hmax : p.maxProb = p.away := maxProb_eq_away p (by linarith) (by linarith)
    have e1 : ¬ isHighest p.home p := by unfold isHighest; rw [hmax]; intro hc; linarith
    have e2 : ¬ isHighest p.draw p := by unfold isHighest; rw [hmax]; intro hc; linarith
    have e3 : isHighest p.away p := hmax.symm
    refine ⟨?_, ?_⟩
    · unfold nHighest
      rw [if_neg e1, if_neg e2, if_pos e3]
    · unfold nClose
      rw [if_neg (notCloseTie_far _ _ (by rw [hmax]; linarith)),
        if_neg (notCloseTie_far _ _ (by rw [hmax]; linarith)), if_neg (notCloseTie_max _ _ e3)]

theorem decisionTable_clear_winner (mo : String) (p : HistProbs) (h : ClearWinner p) :
    decisionTable mo p = mo := by
  unfold decisionTable
  rw [if_pos (clearWinner_counts p h)]

theorem decisionTable_all_tied (mo : String) (p : HistProbs)
    (h1 : p.home = p.draw) (h2 : p.draw = p.away) :
    decisionTable mo p = if mo = "Draw" then "Home Team Win or Away Team Win" else mo := by
  obtain ⟨x, d, a⟩ := p
  simp only at h1 h2
  subst h1
  subst h2
  have hmax : HistProbs.maxProb ⟨x, x, x⟩ = x := by
    unfold HistProbs.maxProb qmax
    simp
  have hh : isHighest x ⟨x, x, x⟩ := hmax.symm
  have hn : nHighest ⟨x, x, x⟩ = 3 := by
    unfold nHighest
    rw [if_pos hh]
  unfold decisionTable
  rw [if_neg (by rw [hn]; rintro ⟨hc, -⟩; cases hc), if_pos (Or.inl ⟨hh, hh⟩)]

/- ===================== C1 ===================== -/

/-- C1: for every historical triple with one clear winner (unique maximum,
both other outcomes more than five points below) and every raw prediction
that maps to a valid bucket, determine_final_prediction returns the model
normalized outcome, never the historical winner: Case 1 always returns the
model outcome. -/
theorem C1_model_priority (pred : RawPred) (v : ℚ) (mo : String) (p : HistProbs)
    (hv : pred.toFloat = some v) (hmo : modelOutcomeOf v = some mo) (hcw : ClearWinner p) :
    determine_final_prediction pred (some p) = mo := by
  unfold determine_final_prediction
  rw [hv]
  dsimp only
  rw [hmo]
  exact decisionTable_clear_winner mo p hcw

/-- C1 witness: the concrete scenario of the claim, historical triple Home 20
Draw 25 Away 55 and raw model prediction 2, yields Home Team Win. -/
theorem C1_model_priority_witness :
    determine_final_prediction (.num 2) (some ⟨20, 25, 55⟩) = "Home Team Win" :=
  C1_model_priority (.num 2) 2 "Home Team Win" ⟨20, 25, 55⟩ rfl
    (by norm_num [modelOutcomeOf]) (by norm_num [ClearWinner])

/- ===================== C2 amended ===================== -/

/-- C2 amended: for an exactly tied historical triple and every raw
prediction that maps to a valid bucket, determine_final_prediction returns
the model normalized prediction when it is Home Team Win or Away Team Win,
but returns the double-chance label Home Team Win or Away Team Win when the
model predicts Draw, because Case 2 fires before the all-tied Case 5. -/
theorem C2_all_tied_amended (pred : RawPred) (v : ℚ) (mo : String) (p : HistProbs)
    (hv : pred.toFloat = some v) (hmo : modelOutcomeOf v = some mo)
    (h1 : p.home = p.draw) (h2 : p.draw = p.away) :
    determine_final_prediction pred (some p) =
      if mo = "Draw" then "Home Team Win or Away Team Win" else mo := by
  unfold determine_final_prediction
  rw [hv]
  dsimp only
  rw [hmo]
  exact decisionTable_all_tied mo p h1 h2

/-- C2 amended witness: all outcomes tied at 100/3 with raw prediction 2
yields the model prediction Home Team Win. -/
theorem C2_all_tied_amended_witness :
    determine_final_prediction (.num 2) (some ⟨100/3, 100/3, 100/3⟩) = "Home Team Win" := by
  have h := C2_all_tied_amended (.num 2) 2 "Home Team Win" ⟨100/3, 100/3, 100/3⟩ rfl
    (by norm_num [modelOutcomeOf]) rfl rfl
  simpa using h

/- ===================== Probability pipeline lemmas ===================== -/

theorem goodTriple_bounds (pd : ProbDict) (h : GoodTriple pd) :
    pd.away ≤ 1 ∧ pd.draw ≤ 1 ∧ pd.home ≤ 1 := by
  obtain ⟨ha, hd, hh, ht⟩ := h
  unfold ProbDict.total at ht
  exact ⟨by linarith, by linarith, by linarith⟩

theorem normalizeTriple_good (a d h : ℚ) (ha : 0 ≤ a) (hd : 0 ≤ d) (hh : 0 ≤ h)
    (hpos : 0 < a + d + h) :
    GoodTriple ⟨a / (a + d + h), d / (a + d + h), h / (a + d + h)⟩ := by
  unfold GoodTriple ProbDict.total
  dsimp only
  refine ⟨div_nonneg ha hpos.le, div_nonneg hd hpos.le, div_nonneg hh hpos.le, ?_⟩
  field_simp

theorem stepDNormalizeBase_good (pd : ProbDict) (ha : 0 ≤ pd.away) (hd : 0 ≤ pd.draw)
    (hh : 0 ≤ pd.home) : GoodTriple (stepDNormalizeBase pd) := by
  unfold stepDNormalizeBase
  split_ifs with hpos
  · exact normalizeTriple_good pd.away pd.draw pd.home ha hd hh hpos
  · unfold GoodTriple ProbDict.total
    norm_num

theorem pctFixAll_id (pd : ProbDict) (h : GoodTriple pd) : pctFixAll pd = pd := by
  obtain ⟨b1, b2, b3⟩ := goodTriple_bounds pd h
  unfold pctFixAll pctFix
  rw [if_neg (not_lt.mpr b1), if_neg (not_lt.mpr b2), if_neg (not_lt.mpr b3)]

theorem renormIfOff_id (pd : ProbDict) (h : GoodTriple pd) : renormIfOff pd = pd := by
  unfold renormIfOff
  rw [h.2.2.2]
  norm_num [qabs]

theorem validationReset_id (pd : ProbDict) (h : GoodTriple pd) : validationReset pd = pd := by
  unfold validationReset
  rw [h.2.2.2]
  norm_num [qabs]

theorem stepDNormalize_good (pd : ProbDict) (ha : 0 ≤ pd.away) (hd : 0 ≤ pd.draw)
    (hh : 0 ≤ pd.home) : GoodTriple (stepDNormalize pd) := by
  unfold stepDNormalize
  have g1 := stepDNormalizeBase_good pd ha hd hh
  rw [pctFixAll_id _ g1, renormIfOff_id _ g1, validationReset_id _ g1]
  exact g1

theorem blendWithForm_good (pd : ProbDict) (fh fd fa : ℚ) (h : GoodTriple pd)
    (hfh : 0 ≤ fh) (hfd : 0 ≤ fd) (hfa : 0 ≤ fa) (hsum : fh + fd + fa = 1) :
    GoodTriple (blendWithForm pd fh fd fa) := by
  obtain ⟨ha, hd, hh, ht⟩ := h
  unfold ProbDict.total at ht
  unfold blendWithForm ProbDict.total
  dsimp only
  have htb : pd.away * 0.6 + fa * 0.4 + (pd.draw * 0.6 + fd * 0.4) + (pd.home * 0.6 + fh * 0.4)
      = 1 := by linarith
  rw [htb]
  norm_num
  unfold GoodTriple ProbDict.total
  dsimp only
  refine ⟨by nlinarith, by nlinarith, by nlinarith, by linarith⟩

theorem formCorrection_good (pd : ProbDict) (d : ℚ) (h : GoodTriple pd) :
    GoodTriple (formCorrection pd d) := by
  unfold formCorrection
  split_ifs <;> first
    | exact h
    | exact blendWithForm_good pd _ _ _ h (by norm_num) (by norm_num) (by norm_num) (by norm_num)

theorem histReplace_good (p : HistProbs) (pd : ProbDict) (hpd : GoodTriple pd)
    (ha : 0 ≤ p.away) (hd : 0 ≤ p.draw) (hh : 0 ≤ p.home) :
    GoodTriple (histReplace p pd) := by
  unfold histReplace
  dsimp only
  split_ifs with hu hpos
  · exact normalizeTriple_good _ _ _ (by positivity) (by positivity) (by positivity) hpos
  · exfalso
    unfold useHistorical qmax qmin at hu
    unfold ProbDict.total at hpos
    dsimp only at hpos
    push_neg at hpos
    split_ifs at hu <;> linarith
  · exact hpd

theorem finalValidation_id (pd : ProbDict) (h : GoodTriple pd) : finalValidation pd = pd := by
  unfold finalValidation
  dsimp only
  rw [pctFixAll_id pd h, h.2.2.2]
  norm_num [qabs]

/- ===================== C4 ===================== -/

/-- C4: for every non-negative mapped model probability dictionary, every
form strength difference and every non-negative historical triple, the
probability dictionary produced by the advanced_predict_match main-path
pipeline sums to one within 0.01 and every entry lies in the unit interval. -/
theorem C4_probability_closure (raw : ProbDict) (formDiff : ℚ) (p : HistProbs)
    (h1 : 0 ≤ raw.away) (h2 : 0 ≤ raw.draw) (h3 : 0 ≤ raw.home)
    (h4 : 0 ≤ p.away) (h5 : 0 ≤ p.draw) (h6 : 0 ≤ p.home) :
    qabs ((assembleFinalProbs raw formDiff p).total - 1) ≤ 0.01 ∧
    (0 ≤ (assembleFinalProbs raw formDiff p).away ∧ (assembleFinalProbs raw formDiff p).away ≤ 1) ∧
    (0 ≤ (assembleFinalProbs raw formDiff p).draw ∧ (assembleFinalProbs raw formDiff p).draw ≤ 1) ∧
    (0 ≤ (assembleFinalProbs raw formDiff p).home ∧ (assembleFinalProbs raw formDiff p).home ≤ 1) := by
  have g1 := stepDNormalize_good raw h1 h2 h3
  have g2 := formCorrection_good _ formDiff g1
  have g3 := histReplace_good p _ g2 h4 h5 h6
  have ge : assembleFinalProbs raw formDiff p
      = histReplace p (formCorrection (stepDNormalize raw) formDiff) := by
    unfold assembleFinalProbs
    rw [finalValidation_id _ g3]
  rw [ge]
  obtain ⟨ba, bd, bh⟩ := goodTriple_bounds _ g3
  obtain ⟨ga, gd, gh, gt⟩ := g3
  rw [gt]
  refine ⟨by norm_num [qabs], ⟨ga, ba⟩, ⟨gd, bd⟩, ⟨gh, bh⟩⟩

/-- C4 witness at a concrete model dictionary and historical triple. -/
theorem C4_probability_closure_witness :
    qabs ((assembleFinalProbs ⟨1/5, 3/10, 1/2⟩ 0 ⟨50, 30, 20⟩).total - 1) ≤ 0.01 ∧
    (0 ≤ (assembleFinalProbs ⟨1/5, 3/10, 1/2⟩ 0 ⟨50, 30, 20⟩).away ∧
      (assembleFinalProbs ⟨1/5, 3/10, 1/2⟩ 0 ⟨50, 30, 20⟩).away ≤ 1) ∧
    (0 ≤ (assembleFinalProbs ⟨1/5, 3/10, 1/2⟩ 0 ⟨50, 30, 20⟩).draw ∧
      (assembleFinalProbs ⟨1/5, 3/10, 1/2⟩ 0 ⟨50, 30, 20⟩).draw ≤ 1) ∧
    (0 ≤ (assembleFinalProbs ⟨1/5, 3/10, 1/2⟩ 0 ⟨50, 30, 20⟩).home ∧
      (assembleFinalProbs ⟨1/5, 3/10, 1/2⟩ 0 ⟨50, 30, 20⟩).home ≤ 1) :=
  C4_probability_closure ⟨1/5, 3/10, 1/2⟩ 0 ⟨50, 30, 20⟩ (by norm_num) (by norm_num)
    (by norm_num) (by norm_num) (by norm_num) (by norm_num)

/- ===================== C8 ===================== -/

/-- C8 counterexample: Arsenal is a Premier League (European) team and Basel
a Switzerland League (Others) team; with a non-empty loaded dataset the
routing of advanced_predict_match returns None for this straddling pair (it
only defaults to the European dataset for loading), so no prediction is
produced with the European pair. -/
theorem C8_mixed_categories_counterexample :
    advanced_predict_route premierLeagueTeams switzerlandLeagueTeams "Arsenal" "Basel" false =
      { requiredDataset := 1, outcome := .nullResult } := by
  decide

/-- C8 amended: for every straddling pair (not both in the European set and
not both in the Others set) advanced_predict_match selects the European
dataset 1 for loading, but returns None when the dataset is non-empty; only
when the dataset loads empty does it return a form-based fallback prediction
tagged Model1 (Form-Based Fallback). -/
theorem C8_mixed_categories_amended (mainTeams otherTeams : List String) (home away : String)
    (dataEmpty : Bool)
    (h1 : ¬(home ∈ mainTeams ∧ away ∈ mainTeams))
    (h2 : ¬(home ∈ otherTeams ∧ away ∈ otherTeams)) :
    advanced_predict_route mainTeams otherTeams home away dataEmpty =
      { requiredDataset := 1,
        outcome := if dataEmpty then
          RouteOutcome.fallbackPrediction "Model1 (Form-Based Fallback)"
        else RouteOutcome.nullResult } := by
  unfold advanced_predict_route
  cases dataEmpty <;> simp [h1, h2]

/-- C8 amended witness: Arsenal and Basel with an empty dataset yield the
Model1 form-based fallback. -/
theorem C8_mixed_categories_amended_witness :
    advanced_predict_route premierLeagueTeams switzerlandLeagueTeams "Arsenal" "Basel" true =
      { requiredDataset := 1,
        outcome := RouteOutcome.fallbackPrediction "Model1 (Form-Based Fallback)" } := by
  have h := C8_mixed_categories_amended premierLeagueTeams switzerlandLeagueTeams
    "Arsenal" "Basel" true (by decide) (by decide)
  simpa using h

/- ===================== Final label section lemmas ===================== -/

theorem outcomeMapGet_mem (n : ℕ) :
    outcomeMapGet n = "Away" ∨ outcomeMapGet n = "Draw" ∨ outcomeMapGet n = "Home" := by
  unfold outcomeMapGet
  split_ifs <;> simp

theorem finalLabelSection_invalid (pred : RawPred) (v : ℚ) (p : HistProbs) (pd : ProbDict)
    (hv : pred.toFloat = some v) (hmo : modelOutcomeOf v = none) (hnu : ¬ useHistorical p) :
    finalLabelSection pred (some p) pd =
      { final := "❗ Invalid prediction", outcome := outcomeMapGet pd.argmax, probsOut := pd } := by
  have hfinal : determine_final_prediction pred (some p) = "❗ Invalid prediction" := by
    unfold determine_final_prediction
    rw [hv]
    dsimp only
    rw [hmo]
  unfold finalLabelSection
  dsimp only
  rw [if_neg hnu, hfinal]
  simp only [show strContains "❗ Invalid prediction" " or " = false by decide,
    show strContains "❗ Invalid prediction" "Home Team Win" = false by decide,
    show strContains "❗ Invalid prediction" "Away Team Win" = false by decide,
    show strTrim "❗ Invalid prediction" ≠ "Home" by decide,
    show strTrim "❗ Invalid prediction" ≠ "Away" by decide,
    show strTrim "❗ Invalid prediction" ≠ "Draw" by decide,
    Bool.false_eq_true, if_false, or_self, or_false, false_or, ite_self]

/- ===================== C3 ===================== -/

/-- C3 counterexample: raw model prediction 5 maps to no bucket, so
determine_final_prediction yields the invalid signal; yet with historical
triple Home 40 Draw 30 Away 30 (spread not above ten) and corrected
probabilities Away 0.2 Draw 0.3 Home 0.5, the outcome field returned to the
caller of advanced_predict_match is the guessed argmax outcome Home — the
invalid signal survives only in the secondary final_prediction field. -/
theorem C3_invalid_signal_counterexample :
    (finalLabelSection (.num 5) (some ⟨40, 30, 30⟩) ⟨1/5, 3/10, 1/2⟩).outcome = "Home" ∧
    (finalLabelSection (.num 5) (some ⟨40, 30, 30⟩) ⟨1/5, 3/10, 1/2⟩).final =
      "❗ Invalid prediction" := by
  have h := finalLabelSection_invalid (.num 5) 5 ⟨40, 30, 30⟩ ⟨1/5, 3/10, 1/2⟩ rfl
    (by norm_num [modelOutcomeOf]) (by norm_num [useHistorical, qmax, qmin])
  rw [h]
  refine ⟨?_, rfl⟩
  norm_num [ProbDict.argmax, outcomeMapGet]

/-- C3 amended: when the raw prediction maps to no bucket and the historical
spread is at most ten points, determine_final_prediction does produce the
explicit invalid signal, but advanced_predict_match does not surface it as
the outcome: the returned outcome field is always one of the guessed labels
Home, Draw or Away (the probability argmax), and the raw signal survives
only in the secondary final_prediction field. -/
theorem C3_invalid_signal_amended (pred : RawPred) (v : ℚ) (p : HistProbs) (pd : ProbDict)
    (hv : pred.toFloat = some v) (hmo : modelOutcomeOf v = none) (hnu : ¬ useHistorical p) :
    (finalLabelSection pred (some p) pd).final = "❗ Invalid prediction" ∧
    ((finalLabelSection pred (some p) pd).outcome = "Home" ∨
      (finalLabelSection pred (some p) pd).outcome = "Draw" ∨
      (finalLabelSection pred (some p) pd).outcome = "Away") := by
  rw [finalLabelSection_invalid pred v p pd hv hmo hnu]
  refine ⟨rfl, ?_⟩
  rcases outcomeMapGet_mem pd.argmax with h | h | h <;> simp [h]

/-- C3 amended witness at raw prediction 7 with a flat historical triple and
a draw-leaning dictionary. -/
theorem C3_invalid_signal_amended_witness :
    (finalLabelSection (.num 7) (some ⟨35, 35, 30⟩) ⟨3/10, 2/5, 3/10⟩).final =
      "❗ Invalid prediction" ∧
    ((finalLabelSection (.num 7) (some ⟨35, 35, 30⟩) ⟨3/10, 2/5, 3/10⟩).outcome = "Home" ∨
      (finalLabelSection (.num 7) (some ⟨35, 35, 30⟩) ⟨3/10, 2/5, 3/10⟩).outcome = "Draw" ∨
      (finalLabelSection (.num 7) (some ⟨35, 35, 30⟩) ⟨3/10, 2/5, 3/10⟩).outcome = "Away") :=
  C3_invalid_signal_amended (.num 7) 7 ⟨35, 35, 30⟩ ⟨3/10, 2/5, 3/10⟩ rfl
    (by norm_num [modelOutcomeOf]) (by norm_num [useHistorical, qmax, qmin])

/- ===================== H2H mirror lemmas ===================== -/

theorem invRes_caseH (s : String) : ((invRes s == "H") = true) ↔ ((s == "A") = true) := by
  by_cases h1 : s = "H"
  · subst h1
    decide
  · by_cases h2 : s = "A"
    · subst h2
      decide
    · unfold invRes
      simp [h1, h2]

theorem invRes_caseA (s : String) : ((invRes s == "A") = true) ↔ ((s == "H") = true) := by
  by_cases h1 : s = "H"
  · subst h1
    decide
  · by_cases h2 : s = "A"
    · subst h2
      decide
    · unfold invRes
      simp [h1, h2]

theorem invRes_caseD (s : String) : ((invRes s == "D") = true) ↔ ((s == "D") = true) := by
  by_cases h1 : s = "H"
  · subst h1
    decide
  · by_cases h2 : s = "A"
    · subst h2
      decide
    · unfold invRes
      simp [h1, h2]

/- ===================== C7 ===================== -/

/-- C7: probability mass is conserved under fixture-direction inversion. For
distinct trimmed team names and a non-empty table holding only A-vs-B
fixtures, the triple computed by the H2H branch of
calculate_probabilities_original for (A, B) equals, with Home and Away
swapped, the triple computed for (B, A) from the mirrored table (home and
away columns swapped, results inverted H-A, D unchanged). -/
theorem C7_h2h_mirror_symmetry (A B : String) (rows : List Row)
    (hAB : strTrim A ≠ strTrim B)
    (hall : ∀ r ∈ rows, r.home = A ∧ r.away = B)
    (hne : rows ≠ []) :
    ∃ pAB pBA, calculate_probabilities_h2h A B rows = some pAB ∧
      calculate_probabilities_h2h B A (rows.map mirrorRow) = some pBA ∧
      pBA.home = pAB.away ∧ pBA.draw = pAB.draw ∧ pBA.away = pAB.home := by
  have hf1 : rows.filter
      (fun r => strTrim r.home == strTrim A && strTrim r.away == strTrim B) = rows := by
    apply List.filter_eq_self.mpr
    intro r hr
    obtain ⟨h1, h2⟩ := hall r hr
    rw [h1, h2]
    simp
  have hf2 : rows.filter
      (fun r => strTrim r.home == strTrim B && strTrim r.away == strTrim A) = [] := by
    rw [List.filter_eq_nil_iff]
    intro r hr
    obtain ⟨h1, h2⟩ := hall r hr
    rw [h1, h2]
    simp [hAB]
  have hm1 : (rows.map mirrorRow).filter
      (fun r => strTrim r.home == strTrim B && strTrim r.away == strTrim A)
      = rows.map mirrorRow := by
    apply List.filter_eq_self.mpr
    intro r hr
    rcases List.mem_map.mp hr with ⟨r0, hr0, rfl⟩
    obtain ⟨h1, h2⟩ := hall r0 hr0
    simp [mirrorRow, h1, h2]
  have hm2 : (rows.map mirrorRow).filter
      (fun r => strTrim r.home == strTrim A && strTrim r.away == strTrim B) = [] := by
    rw [List.filter_eq_nil_iff]
    intro r hr
    rcases List.mem_map.mp hr with ⟨r0, hr0, rfl⟩
    obtain ⟨h1, h2⟩ := hall r0 hr0
    simp [mirrorRow, h1, h2, Ne.symm hAB]
  have hcH : (rows.map mirrorRow).countP (fun r => r.res == "H")
      = rows.countP (fun r => r.res == "A") := by
    rw [List.countP_map]
    apply List.countP_congr
    intro r hr
    exact invRes_caseH r.res
  have hcA : (rows.map mirrorRow).countP (fun r => r.res == "A")
      = rows.countP (fun r => r.res == "H") := by
    rw [List.countP_map]
    apply List.countP_congr
    intro r hr
    exact invRes_caseA r.res
  have hcD : (rows.map mirrorRow).countP (fun r => r.res == "D")
      = rows.countP (fun r => r.res == "D") := by
    rw [List.countP_map]
    apply List.countP_congr
    intro r hr
    exact invRes_caseD r.res
  have hlen0 : rows.length ≠ 0 := by
    simpa [List.length_eq_zero] using hne
  unfold calculate_probabilities_h2h
  dsimp only
  rw [hf1, hf2, hm1, hm2]
  simp only [List.countP_nil, List.length_nil, List.length_map, Nat.add_zero]
  rw [hcH, hcA, hcD]
  exact ⟨_, _, if_neg hlen0, if_neg hlen0, rfl, rfl, rfl⟩

/-- C7 witness: the end-to-end scenario with TeamX beating TeamY twice and
drawing once, in both fixture orientations. -/
theorem C7_h2h_mirror_symmetry_witness :
    ∃ pAB pBA, calculate_probabilities_h2h "TeamX" "TeamY"
        [⟨"TeamX", "TeamY", "H", 1⟩, ⟨"TeamX", "TeamY", "H", 2⟩, ⟨"TeamX", "TeamY", "D", 3⟩]
        = some pAB ∧
      calculate_probabilities_h2h "TeamY" "TeamX"
        ([⟨"TeamX", "TeamY", "H", 1⟩, ⟨"TeamX", "TeamY", "H", 2⟩,
          ⟨"TeamX", "TeamY", "D", 3⟩].map mirrorRow) = some pBA ∧
      pBA.home = pAB.away ∧ pBA.draw = pAB.draw ∧ pBA.away = pAB.home :=
  C7_h2h_mirror_symmetry "TeamX" "TeamY"
    [⟨"TeamX", "TeamY", "H", 1⟩, ⟨"TeamX", "TeamY", "H", 2⟩, ⟨"TeamX", "TeamY", "D", 3⟩]
    (by decide) (by decide) (by decide)
